import Mathlib

/-!
Verification of the result-aggregation and job-auditing core of the
GECCO-2026-TPEC repository (`aggregate_results.py`, `job_checker.py`,
`individual.py`), as a shallow embedding in Lean 4.

Modelling conventions:
* A JSON artifact on disk is `Option (Option _)`: the outer `Option` is file
  existence, the inner one is parse success.  Parse failures in the Python
  code are caught and logged, never raised; accordingly every embedded
  function is total and returns a value on parse failure.
* Python floats (test accuracies, thresholds) are modelled as `ℚ`.
* Failure reasons keep their source spelling as strings: `"memory-limit"`,
  `"time-limit"`, and the literal string `"None"` used by
  `process_task_model` for "no failure".
* Python `assert` failures on `Individual` are modelled as `Except.error`.
-/

/-- Parsed content of `global_accuracy_results.json`.  The code reads the
`time_exceeded` field with `global_results.get('time_exceeded', False)`, so
the field may be absent (`none`). -/
structure GlobalJson where
  time_exceeded : Option Bool
deriving DecidableEq

/-- Parsed content of `best_model_results.json`.  The code reads the
`test_accuracy` field with `.get('test_accuracy', None)`, so the field may
be absent (`none`). -/
structure BestJson where
  test_accuracy : Option ℚ
deriving DecidableEq

/-- One `Replicate_<i>` directory: whether `iterdir()` yields no entries,
and the two JSON artifacts (outer `Option`: the file exists; inner
`Option`: it parses). -/
structure ReplicateDir where
  isEmpty : Bool
  globalResults : Option (Option GlobalJson)
  bestModel : Option (Option BestJson)
deriving DecidableEq

/-- `check_replicate_status` from `aggregate_results.py` (lines 14-49).
Checks, in order: directory empty; `global_accuracy_results.json` missing;
that file unparseable or its `time_exceeded` flag truthy; and
`best_model_results.json` missing.  Returns `(is_valid, failure_reason)`. -/
def check_replicate_status (d : ReplicateDir) : Bool × Option String :=
  if d.isEmpty then (false, some "memory-limit")
  else
    match d.globalResults with
    | none => (false, some "memory-limit")
    | some none => (false, some "memory-limit")
    | some (some g) =>
      if g.time_exceeded.getD false then (false, some "time-limit")
      else
        match d.bestModel with
        | none => (false, some "memory-limit")
        | some _ => (true, none)

/-- `get_test_accuracy` from `aggregate_results.py` (lines 52-67): reads
`best_model_results.json` and returns its `test_accuracy` field, or `none`
when the file is missing, unparseable, or lacks the field. -/
def get_test_accuracy (d : ReplicateDir) : Option ℚ :=
  match d.bestModel with
  | none => none
  | some none => none
  | some (some b) => b.test_accuracy

/-- One iteration of the replicate loop of `process_task_model`
(lines 93-107): the accumulator is the `test_accuracies` list and the
`failure_reasons` collection (the Python `set`; a list here, with only
membership ever inspected).  A missing `Replicate_<i>` directory adds
`'memory-limit'`; an invalid replicate adds its reason; a valid one appends
its extracted accuracy when present. -/
def repStep (reps : Nat → Option ReplicateDir)
    (acc : List ℚ × List (Option String)) (i : Nat) :
    List ℚ × List (Option String) :=
  match reps i with
  | none => (acc.1, some "memory-limit" :: acc.2)
  | some d =>
    match check_replicate_status d with
    | (true, _) =>
      match get_test_accuracy d with
      | some a => (acc.1 ++ [a], acc.2)
      | none => acc
    | (false, r) => (acc.1, r :: acc.2)

/-- The failure-resolution chain of `process_task_model` (lines 109-115):
`memory-limit` dominates `time-limit`, which dominates `'None'`.  The
collected reasons come from `check_replicate_status`, hence
`Option String`. -/
def resolve_replicate_failures (reasons : List (Option String)) : String :=
  if some "memory-limit" ∈ reasons then "memory-limit"
  else if some "time-limit" ∈ reasons then "time-limit"
  else "None"

/-- `process_task_model` from `aggregate_results.py` (lines 70-122).  The
task directory for the (model, task) pair is `none` when
`<root>/<model>/task_<id>` does not exist; otherwise it maps each replicate
index to that replicate's directory (`none` when `Replicate_<i>` does not
exist).  Returns `(avg_test_accuracy, failure_reason)`. -/
def process_task_model (taskDir : Option (Nat → Option ReplicateDir))
    (num_replicates : Nat := 10) : Option ℚ × String :=
  match taskDir with
  | none => (none, "None")
  | some reps =>
    let res := (List.range num_replicates).foldl (repStep reps) ([], [])
    let overall_failure := resolve_replicate_failures res.2
    let avg := if res.1.isEmpty then none
               else some (res.1.sum / (res.1.length : ℚ))
    (avg, overall_failure)

/-- The per-task failure-resolution chain of `aggregate_results`
(lines 176-183): the same dominance order, over the set of non-`'None'`
per-model failure strings of one task row. -/
def resolve_task_failures (failures : List String) : String :=
  if "memory-limit" ∈ failures then "memory-limit"
  else if "time-limit" ∈ failures then "time-limit"
  else "None"

/-- Replace every non-overlapping occurrence of `pat` in the string,
left to right, by `repl` (the semantics of Python `str.replace`).  The
fuel argument is instantiated with the string's length, which bounds the
recursion since every step consumes at least one character. -/
def replaceAllAux (pat repl : List Char) : Nat → List Char → List Char
  | _, [] => []
  | 0, s => s
  | fuel + 1, c :: rest =>
    if pat ≠ [] ∧ pat.isPrefixOf (c :: rest) then
      repl ++ replaceAllAux pat repl fuel ((c :: rest).drop pat.length)
    else
      c :: replaceAllAux pat repl fuel rest

/-- `model_dir.replace('_Timing', '')` (lines 150, 164, 195, 213). -/
def stripTiming (s : String) : String :=
  ⟨replaceAllAux "_Timing".data "".data s.data.length s.data⟩

/-- The body of the per-task loop of `aggregate_results` (lines 157-183)
for one task row: for every discovered model directory call
`process_task_model`, record the average accuracy in that model's column,
collect the non-`'None'` failures, and resolve the task's overall failure.
`fs model_dir task_id` is the task directory of that (model, task) pair.
Returns the model columns `(column name, cell)` and the task's `Failure`
cell. -/
def process_row (fs : String → String → Option (Nat → Option ReplicateDir))
    (model_dirs : List String) (task_id : String) :
    List (String × Option ℚ) × String :=
  let res := model_dirs.map
    (fun m => (stripTiming m, process_task_model (fs m task_id) 10))
  let cells := res.map (fun p => (p.1, p.2.1))
  let task_failures := (res.map (fun p => p.2.2)).filter (fun f => f ≠ "None")
  (cells, resolve_task_failures task_failures)

/-- The threshold test of `aggregate_results` (lines 193-199): a row
exceeds the threshold when some model's recorded accuracy is present and
`≥ threshold`. -/
def exceeds_threshold (cells : List (String × Option ℚ)) (threshold : ℚ) :
    Bool :=
  cells.any (fun c =>
    match c.2 with
    | some a => decide (threshold ≤ a)
    | none => false)

/-- The row pipeline of `aggregate_results` (lines 156-236): build every
task row, keep only rows whose `Failure` is `'None'` (line 186), apply the
optional threshold filter (lines 189-203), and drop the `Failure` column
(line 221).  Each output row is the task id together with its model
columns. -/
def aggregate_rows (fs : String → String → Option (Nat → Option ReplicateDir))
    (model_dirs : List String) (tasks : List String) (threshold : Option ℚ) :
    List (String × List (String × Option ℚ)) :=
  let rows := tasks.map (fun t => (t, process_row fs model_dirs t))
  let kept := rows.filter (fun r => r.2.2 = "None")
  let kept2 :=
    match threshold with
    | none => kept
    | some th => kept.filter (fun r => ¬ exceeds_threshold r.2.1 th)
  kept2.map (fun r => (r.1, r.2.1))

/-- `TASK_IDS` from `job_checker.py` (lines 13-18): the fixed ordered list
of OpenML task identifiers, in the order assigned by `runner.sb`. -/
def TASK_IDS : List Nat :=
  [190412, 146818, 359955, 168757, 359956, 359958, 359962, 190137, 168911,
   190392, 189922, 359965, 359966, 359967, 190411, 146820, 359968, 359975,
   359972, 168350, 359973, 190410, 359971, 359988, 359989, 359979, 359980,
   359992, 359982, 167120, 359990, 189354, 360114, 359994]

/-- `NUM_REPLICATES` from `job_checker.py` (line 21). -/
def NUM_REPLICATES : Nat := 10

/-- `calculate_array_id` from `job_checker.py` (lines 55-68):
`SLURM_ARRAY_TASK_ID = TASK_INDEX * NUM_REPLICATES + REP`. -/
def calculate_array_id (task_index replicate : Nat) : Nat :=
  task_index * NUM_REPLICATES + replicate

/-!
The `Individual` value object (`individual.py`).  It holds a parameter
mapping by reference; `get_params` hands the caller a deep copy, so we model
a tiny heap of parameter mappings.  An address is an index into the heap's
cell list; `alloc` appends a fresh cell.  Scalar performance fields are
modelled as `Option ℚ` (`None` until set), and the guarding `assert`
statements as `Except.error`.
-/

/-- A heap of parameter mappings (`Dict[str, Any]` modelled with value
type `α`); an address is an index into `cells`. -/
structure PHeap (α : Type) where
  cells : List (List (String × α))

/-- Read the mapping stored at address `a`. -/
def PHeap.read (h : PHeap α) (a : Nat) : List (String × α) :=
  h.cells.getD a []

/-- Overwrite the mapping at address `a` (mutating a dict in place). -/
def PHeap.write (h : PHeap α) (a : Nat) (v : List (String × α)) : PHeap α :=
  ⟨h.cells.set a v⟩

/-- Allocate a fresh mapping; returns its address and the grown heap. -/
def PHeap.alloc (h : PHeap α) (v : List (String × α)) : Nat × PHeap α :=
  (h.cells.length, ⟨h.cells ++ [v]⟩)

/-- Address `a` points at an allocated cell. -/
def PHeap.valid (h : PHeap α) (a : Nat) : Prop := a < h.cells.length

/-- `Individual` from `individual.py`: the three scalar fields start as
`None` in `__init__`, `params` is a reference to a parameter mapping on the
heap, and `model_type` is a tag. -/
structure Individual (α : Type) where
  train_performance : Option ℚ := none
  val_performance : Option ℚ := none
  ei : Option ℚ := none
  params : Nat
  model_type : String

/-- `Individual.__init__` (lines 11-28): scalar fields start unset. -/
def Individual.mk0 (params : Nat) (model_type : String) : Individual α :=
  { params := params, model_type := model_type }

/-- `set_train_performance` (lines 33-35): asserts the field is still
`None`, then stores the value. -/
def Individual.set_train_performance (ind : Individual α) (f : ℚ) :
    Except String (Individual α) :=
  match ind.train_performance with
  | some _ => .error "Train performance has already been set."
  | none => .ok { ind with train_performance := some f }

/-- `get_train_performance` (lines 37-39): asserts the field has been set,
then returns it. -/
def Individual.get_train_performance (ind : Individual α) :
    Except String ℚ :=
  match ind.train_performance with
  | none => .error "Train performance has not been set yet."
  | some v => .ok v

/-- `set_val_performance` (lines 41-43). -/
def Individual.set_val_performance (ind : Individual α) (f : ℚ) :
    Except String (Individual α) :=
  match ind.val_performance with
  | some _ => .error "Validation performance has already been set."
  | none => .ok { ind with val_performance := some f }

/-- `get_val_performance` (lines 45-47). -/
def Individual.get_val_performance (ind : Individual α) :
    Except String ℚ :=
  match ind.val_performance with
  | none => .error "Validation performance has not been set yet."
  | some v => .ok v

/-- `set_ei` (lines 49-51). -/
def Individual.set_ei (ind : Individual α) (ei : ℚ) :
    Except String (Individual α) :=
  match ind.ei with
  | some _ => .error "Expected Improvement has already been set."
  | none => .ok { ind with ei := some ei }

/-- `get_ei` (lines 53-55). -/
def Individual.get_ei (ind : Individual α) : Except String ℚ :=
  match ind.ei with
  | none => .error "Expected Improvement has not been set yet."
  | some v => .ok v

/-- `get_params` (lines 57-59): returns `cp.deepcopy(self.params)` — a
fresh mapping with the same contents, at a new address. -/
def Individual.get_params (ind : Individual α) (h : PHeap α) :
    Nat × PHeap α :=
  h.alloc (h.read ind.params)

/-!  Theorems.  -/

/-- C2: the Resolver returns invalid with reason memory-limit when the
directory has zero entries, when `global_accuracy_results.json` is missing,
or when only `best_model_results.json` is missing while the primary
artifact is present, parseable, and its `time_exceeded` flag is false; when
none of the invalidating conditions hold it returns valid with no
reason. -/
theorem check_replicate_status_memory_limit_and_valid (d : ReplicateDir) :
    (d.isEmpty = true →
      check_replicate_status d = (false, some "memory-limit")) ∧
    (d.isEmpty = false → d.globalResults = none →
      check_replicate_status d = (false, some "memory-limit")) ∧
    (∀ g, d.isEmpty = false → d.globalResults = some (some g) →
      g.time_exceeded.getD false = false → d.bestModel = none →
      check_replicate_status d = (false, some "memory-limit")) ∧
    (∀ g b, d.isEmpty = false → d.globalResults = some (some g) →
      g.time_exceeded.getD false = false → d.bestModel = some b →
      check_replicate_status d = (true, none)) := by
  refine ⟨fun h1 => ?_, fun h1 h2 => ?_, fun g h1 h2 h3 h4 => ?_,
    fun g b h1 h2 h3 h4 => ?_⟩ <;>
    simp [check_replicate_status, h1, *]

/-- Witness for C2: a replicate directory with zero entries is classified
invalid with reason memory-limit. -/
theorem check_replicate_status_memory_limit_and_valid_w :
    check_replicate_status ⟨true, none, none⟩ =
      (false, some "memory-limit") :=
  (check_replicate_status_memory_limit_and_valid ⟨true, none, none⟩).1 rfl

/-- C3: when the primary artifact parses and its `time_exceeded` flag is
true, the Resolver returns invalid with reason time-limit, even if the
secondary artifact exists (the statement holds for every value of
`bestModel`); when the primary artifact is present but fails to parse, the
Resolver returns invalid with reason memory-limit.  The Python code catches
the parse error, prints a warning and returns; every function of this
embedding is total, reflecting that no exception propagates. -/
theorem check_replicate_status_time_limit_and_parse_failure
    (d : ReplicateDir) :
    (∀ g, d.isEmpty = false → d.globalResults = some (some g) →
      g.time_exceeded.getD false = true →
      check_replicate_status d = (false, some "time-limit")) ∧
    (d.isEmpty = false → d.globalResults = some none →
      check_replicate_status d = (false, some "memory-limit")) := by
  refine ⟨fun g h1 h2 h3 => ?_, fun h1 h2 => ?_⟩ <;>
    simp [check_replicate_status, h1, *]

/-- Witness for C3: a non-empty replicate whose primary artifact declares
`time_exceeded = true` is classified time-limit although the secondary
artifact exists. -/
theorem check_replicate_status_time_limit_and_parse_failure_w :
    check_replicate_status
      ⟨false, some (some ⟨some true⟩), some (some ⟨some 1⟩)⟩ =
      (false, some "time-limit") :=
  (check_replicate_status_time_limit_and_parse_failure
    ⟨false, some (some ⟨some true⟩), some (some ⟨some 1⟩)⟩).1
    ⟨some true⟩ rfl rfl rfl

/-- C10: when the primary artifact parses but contains no `time_exceeded`
field at all, the flag defaults to false (it is read with
`.get('time_exceeded', False)`), so the replicate is classified valid
whenever the secondary artifact also exists. -/
theorem missing_time_exceeded_field_defaults_to_false (d : ReplicateDir)
    (b : Option BestJson) :
    d.isEmpty = false →
    d.globalResults = some (some ⟨none⟩) →
    d.bestModel = some b →
    check_replicate_status d = (true, none) := by
  intro h1 h2 h3
  simp [check_replicate_status, h1, h2, h3, Option.getD]

/-- Witness for C10: a replicate whose parsed primary artifact lacks the
`time_exceeded` field and whose secondary artifact exists is valid. -/
theorem missing_time_exceeded_field_defaults_to_false_w :
    check_replicate_status
      ⟨false, some (some ⟨none⟩), some (some ⟨some 1⟩)⟩ = (true, none) :=
  missing_time_exceeded_field_defaults_to_false
    ⟨false, some (some ⟨none⟩), some (some ⟨some 1⟩)⟩
    (some ⟨some 1⟩) rfl rfl rfl

/-- C4: both failure-resolution steps of the aggregator obey the dominance
order memory-limit over time-limit over none: the per-(model, task)
resolution over the reasons collected from the replicates
(`process_task_model`, lines 109-115), and the per-task resolution over the
failures collected across models (`aggregate_results`, lines 176-183). -/
theorem failure_dominance (rs : List (Option String)) (ts : List String) :
    ((some "memory-limit" ∈ rs →
        resolve_replicate_failures rs = "memory-limit") ∧
     (some "memory-limit" ∉ rs → some "time-limit" ∈ rs →
        resolve_replicate_failures rs = "time-limit") ∧
     (some "memory-limit" ∉ rs → some "time-limit" ∉ rs →
        resolve_replicate_failures rs = "None")) ∧
    (("memory-limit" ∈ ts → resolve_task_failures ts = "memory-limit") ∧
     ("memory-limit" ∉ ts → "time-limit" ∈ ts →
        resolve_task_failures ts = "time-limit") ∧
     ("memory-limit" ∉ ts → "time-limit" ∉ ts →
        resolve_task_failures ts = "None")) := by
  refine ⟨⟨fun h => ?_, fun h1 h2 => ?_, fun h1 h2 => ?_⟩,
    ⟨fun h => ?_, fun h1 h2 => ?_, fun h1 h2 => ?_⟩⟩ <;>
    simp [resolve_replicate_failures, resolve_task_failures, *]

/-- Witness for C4: a reason set holding both memory-limit and time-limit
resolves to memory-limit at both levels. -/
theorem failure_dominance_w :
    resolve_replicate_failures [some "time-limit", some "memory-limit"] =
      "memory-limit" ∧
    resolve_task_failures ["time-limit", "memory-limit"] = "memory-limit" :=
  ⟨(failure_dominance [some "time-limit", some "memory-limit"] []).1.1
      (by decide),
   (failure_dominance [] ["time-limit", "memory-limit"]).2.1 (by decide)⟩

/-- C5: when the task directory for a (model, task) pair does not exist,
`process_task_model` returns `(None, 'None')`; consequently a task row all
of whose models lack the task directory accumulates no failure and
resolves to `'None'`. -/
theorem missing_task_dir_is_no_failure
    (fs : String → String → Option (Nat → Option ReplicateDir))
    (model_dirs : List String) (task_id : String) (n : Nat) :
    process_task_model none n = (none, "None") ∧
    ((∀ m ∈ model_dirs, fs m task_id = none) →
      (process_row fs model_dirs task_id).2 = "None") := by
  refine ⟨rfl, fun hall => ?_⟩
  have hfil : ((model_dirs.map
      (fun m => (stripTiming m,
        process_task_model (fs m task_id) 10))).map
        (fun p => p.2.2)).filter (fun f => f ≠ "None") = [] := by
    rw [List.filter_eq_nil_iff]
    intro f hf
    rw [List.map_map, List.mem_map] at hf
    obtain ⟨m, hm, hfm⟩ := hf
    simp only [Function.comp] at hfm
    rw [hall m hm] at hfm
    simp [← hfm, process_task_model]
  simp only [process_row, hfil, resolve_task_failures]
  decide

/-- Witness for C5: with one model whose task directory is absent, the
row's failure resolves to `'None'`. -/
theorem missing_task_dir_is_no_failure_w :
    (process_row (fun _ _ => none) ["DT_Timing"] "1").2 = "None" :=
  (missing_task_dir_is_no_failure (fun _ _ => none) ["DT_Timing"] "1" 10).2
    (by intro m _; rfl)

/-- C8: `calculate_array_id` computes `task_index * 10 + replicate`
(`NUM_REPLICATES = 10`); the task index is the position in the fixed
`TASK_IDS` list, so task 146818 sits at index 1 and its replicate 3 yields
array id 13. -/
theorem calculate_array_id_formula :
    (∀ t r, calculate_array_id t r = t * 10 + r) ∧
    TASK_IDS.indexOf 146818 = 1 ∧
    TASK_IDS.get? 1 = some 146818 ∧
    calculate_array_id 1 3 = 13 :=
  ⟨fun _ _ => rfl, by decide, by decide, rfl⟩

/-- A replicate slot is classified valid by the Resolver: the slot's
directory exists and `check_replicate_status` accepts it. -/
def validRep (r : Option ReplicateDir) : Bool :=
  match r with
  | none => false
  | some d => (check_replicate_status d).1

/-- The accuracy a replicate slot contributes to the averaging list: its
extracted `test_accuracy` if the slot is classified valid and the value is
present, nothing otherwise. -/
def repAcc (r : Option ReplicateDir) : Option ℚ :=
  match r with
  | none => none
  | some d =>
    if (check_replicate_status d).1 then get_test_accuracy d else none

/-- The reason a replicate slot contributes to the failure set: a missing
directory contributes memory-limit, an invalid replicate its reason, a
valid one nothing. -/
def repReason (r : Option ReplicateDir) : Option (Option String) :=
  match r with
  | none => some (some "memory-limit")
  | some d =>
    match check_replicate_status d with
    | (true, _) => none
    | (false, s) => some s

/-- One loop iteration appends the slot's contributed accuracy to the
accuracy list and pushes its contributed reason onto the reason list. -/
theorem repStep_char (reps : Nat → Option ReplicateDir)
    (acc : List ℚ × List (Option String)) (i : Nat) :
    repStep reps acc i =
      (acc.1 ++ (repAcc (reps i)).toList,
       (repReason (reps i)).toList ++ acc.2) := by
  unfold repStep repAcc repReason
  cases reps i with
  | none => simp
  | some d =>
    rcases h : check_replicate_status d with ⟨b, s⟩
    cases b with
    | true => cases hg : get_test_accuracy d <;> simp [h, hg]
    | false => simp [h]

/-- The accuracy list accumulated by the replicate loop is exactly the
contributed accuracies of the visited slots, in order. -/
theorem foldl_repStep_fst (reps : Nat → Option ReplicateDir)
    (l : List Nat) (a : List ℚ) (r : List (Option String)) :
    (l.foldl (repStep reps) (a, r)).1 =
      a ++ l.filterMap (fun i => repAcc (reps i)) := by
  induction l generalizing a r with
  | nil => simp
  | cons i l ih =>
    rw [List.foldl_cons, repStep_char, ih]
    cases h : repAcc (reps i) <;> simp [h, List.filterMap_cons]

/-- A slot with no valid replicate contributes no accuracy. -/
theorem repAcc_eq_none_of_not_valid (r : Option ReplicateDir)
    (h : validRep r = false) : repAcc r = none := by
  cases r with
  | none => rfl
  | some d =>
    unfold validRep at h
    simp only at h
    simp [repAcc, h]

/-- C1: for a (model, task) pair whose task directory exists, the
aggregator's average test accuracy is the arithmetic mean of exactly the
accuracies contributed by the replicates the Resolver classifies valid
(its extracted `test_accuracy`, when present), and it is `None` when that
list is empty; in particular, when no replicate is classified valid the
average is `None`, whatever reasons were accumulated. -/
theorem process_task_model_avg_is_mean_of_valid
    (reps : Nat → Option ReplicateDir) (n : Nat) :
    ((process_task_model (some reps) n).1 =
      (let accs := (List.range n).filterMap (fun i => repAcc (reps i));
       if accs = [] then none
       else some (accs.sum / (accs.length : ℚ)))) ∧
    ((∀ i < n, validRep (reps i) = false) →
      (process_task_model (some reps) n).1 = none) := by
  have hfst : ((List.range n).foldl (repStep reps) ([], [])).1 =
      (List.range n).filterMap (fun i => repAcc (reps i)) := by
    rw [foldl_repStep_fst]; rfl
  constructor
  · simp only [process_task_model, hfst, List.isEmpty_iff]
  · intro hv
    have hnil : (List.range n).filterMap (fun i => repAcc (reps i)) = [] := by
      rw [List.filterMap_eq_nil_iff]
      intro i hi
      exact repAcc_eq_none_of_not_valid _ (hv i (List.mem_range.mp hi))
    simp only [process_task_model, hfst, hnil, List.isEmpty_nil, if_true]

/-- Witness for C1: with both replicate directories missing, no replicate
is valid and the average is `None`. -/
theorem process_task_model_avg_is_mean_of_valid_w :
    (process_task_model (some (fun _ => none)) 2).1 = none :=
  (process_task_model_avg_is_mean_of_valid (fun _ => none) 2).2
    (by intro i _; rfl)

/-- A row that exceeds the larger threshold already exceeds the smaller
one. -/
theorem exceeds_threshold_antitone (cells : List (String × Option ℚ))
    (t1 t2 : ℚ) (h : t1 ≤ t2) (hc : exceeds_threshold cells t2 = true) :
    exceeds_threshold cells t1 = true := by
  unfold exceeds_threshold at hc ⊢
  rw [List.any_eq_true] at hc ⊢
  obtain ⟨c, hc1, hc2⟩ := hc
  refine ⟨c, hc1, ?_⟩
  cases hco : c.2 with
  | none => simp [hco] at hc2
  | some a =>
    rw [hco] at hc2
    exact decide_eq_true (le_trans h (of_decide_eq_true hc2))

/-- C6: threshold filtering is monotonic — for a fixed input table and
results state and thresholds `t1 ≤ t2`, every task row the pipeline keeps
with threshold `t1` it also keeps with threshold `t2`. -/
theorem threshold_filtering_monotone
    (fs : String → String → Option (Nat → Option ReplicateDir))
    (model_dirs tasks : List String) (t1 t2 : ℚ) (h : t1 ≤ t2) :
    ∀ r ∈ aggregate_rows fs model_dirs tasks (some t1),
      r ∈ aggregate_rows fs model_dirs tasks (some t2) := by
  intro r hr
  unfold aggregate_rows at hr ⊢
  simp only [List.mem_map, List.mem_filter] at hr ⊢
  obtain ⟨x, ⟨⟨hx0, hxN⟩, hxq⟩, hxr⟩ := hr
  refine ⟨x, ⟨⟨hx0, hxN⟩, ?_⟩, hxr⟩
  simp only [decide_eq_true_eq] at hxq ⊢
  intro hexc
  exact hxq (exceeds_threshold_antitone x.2.1 t1 t2 h hexc)

/-- Witness for C6: with thresholds 0 ≤ 1, a row kept at threshold 0 is
kept at threshold 1. -/
theorem threshold_filtering_monotone_w :
    ("1", [("DT", (none : Option ℚ))]) ∈
      aggregate_rows (fun _ _ => none) ["DT_Timing"] ["1"] (some 1) :=
  threshold_filtering_monotone (fun _ _ => none) ["DT_Timing"] ["1"] 0 1
    zero_le_one ("1", [("DT", none)]) (by decide)

/-- The model columns of one processed row are named by the discovered
model directories with the `_Timing` suffix stripped. -/
theorem process_row_col_names
    (fs : String → String → Option (Nat → Option ReplicateDir))
    (model_dirs : List String) (t : String) :
    (process_row fs model_dirs t).1.map Prod.fst =
      model_dirs.map stripTiming := by
  simp [process_row, List.map_map, Function.comp]

/-- C7: with no threshold, the output of aggregation over an N-row task
table and M discovered model folders has at most N rows — exactly the rows
whose resolved per-task failure is `'None'` — and every output row carries
exactly the M model columns (named by the model folders with `_Timing`
stripped) and no `Failure` column.  The hypothesis records that no
stripped model name is itself `Failure` (true of the seven real model
folders). -/
theorem aggregation_no_threshold_shape
    (fs : String → String → Option (Nat → Option ReplicateDir))
    (model_dirs tasks : List String)
    (hF : "Failure" ∉ model_dirs.map stripTiming) :
    (aggregate_rows fs model_dirs tasks none).length ≤ tasks.length ∧
    aggregate_rows fs model_dirs tasks none =
      (tasks.filter
        (fun t => (process_row fs model_dirs t).2 = "None")).map
        (fun t => (t, (process_row fs model_dirs t).1)) ∧
    ∀ r ∈ aggregate_rows fs model_dirs tasks none,
      r.2.map Prod.fst = model_dirs.map stripTiming ∧
      "Failure" ∉ r.2.map Prod.fst := by
  have heq : aggregate_rows fs model_dirs tasks none =
      (tasks.filter
        (fun t => (process_row fs model_dirs t).2 = "None")).map
        (fun t => (t, (process_row fs model_dirs t).1)) := by
    simp only [aggregate_rows]
    rw [List.filter_map, List.map_map]
    rfl
  refine ⟨?_, heq, ?_⟩
  · rw [heq, List.length_map]
    exact le_trans (List.length_filter_le _ tasks) (le_refl _)
  · intro r hr
    rw [heq, List.mem_map] at hr
    obtain ⟨t, _, hrt⟩ := hr
    have hcols : r.2 = (process_row fs model_dirs t).1 := by
      rw [← hrt]
    rw [hcols, process_row_col_names]
    exact ⟨rfl, hF⟩

/-- Witness for C7: one model folder `DT_Timing`, one task; the stripped
model name is `DT`, not `Failure`, and the output keeps the row with its
single model column. -/
theorem aggregation_no_threshold_shape_w :
    (aggregate_rows (fun _ _ => none) ["DT_Timing"] ["1"] none).length ≤ 1 :=
  (aggregation_no_threshold_shape (fun _ _ => none) ["DT_Timing"] ["1"]
    (by decide)).1

/-- C9: on an `Individual`, each of the three setters succeeds only while
its field is unset, so a second call on the result of a successful first
call yields an assertion error; each getter on a freshly constructed
individual (field still unset) yields an assertion error; and `get_params`
returns a defensive deep copy — a fresh address holding contents equal to
the stored mapping, such that writing through the returned address never
changes the contents at the stored address. -/
theorem individual_write_once_and_defensive_copy {α : Type}
    (ind ind' : Individual α) (f g : ℚ) (p : Nat) (mt : String)
    (h : PHeap α) :
    (ind.set_train_performance f = .ok ind' →
       ∃ e, ind'.set_train_performance g = Except.error e) ∧
    (ind.set_val_performance f = .ok ind' →
       ∃ e, ind'.set_val_performance g = Except.error e) ∧
    (ind.set_ei f = .ok ind' →
       ∃ e, ind'.set_ei g = Except.error e) ∧
    (∃ e, (Individual.mk0 p mt : Individual α).get_train_performance =
       Except.error e) ∧
    (∃ e, (Individual.mk0 p mt : Individual α).get_val_performance =
       Except.error e) ∧
    (∃ e, (Individual.mk0 p mt : Individual α).get_ei = Except.error e) ∧
    (h.valid ind.params →
      (ind.get_params h).1 ≠ ind.params ∧
      (ind.get_params h).2.read (ind.get_params h).1 =
        (ind.get_params h).2.read ind.params ∧
      ∀ v, ((ind.get_params h).2.write (ind.get_params h).1 v).read
          ind.params = h.read ind.params) := by
  refine ⟨?_, ?_, ?_, ⟨_, rfl⟩, ⟨_, rfl⟩, ⟨_, rfl⟩, ?_⟩
  · intro hok
    unfold Individual.set_train_performance at hok ⊢
    cases htp : ind.train_performance with
    | some v => rw [htp] at hok; exact absurd hok (by simp)
    | none =>
      rw [htp] at hok
      simp only [Except.ok.injEq] at hok
      rw [← hok]
      exact ⟨_, rfl⟩
  · intro hok
    unfold Individual.set_val_performance at hok ⊢
    cases htp : ind.val_performance with
    | some v => rw [htp] at hok; exact absurd hok (by simp)
    | none =>
      rw [htp] at hok
      simp only [Except.ok.injEq] at hok
      rw [← hok]
      exact ⟨_, rfl⟩
  · intro hok
    unfold Individual.set_ei at hok ⊢
    cases htp : ind.ei with
    | some v => rw [htp] at hok; exact absurd hok (by simp)
    | none =>
      rw [htp] at hok
      simp only [Except.ok.injEq] at hok
      rw [← hok]
      exact ⟨_, rfl⟩
  · intro hval
    unfold PHeap.valid at hval
    unfold Individual.get_params PHeap.alloc PHeap.write PHeap.read
    refine ⟨Nat.ne_of_gt hval, ?_, fun v => ?_⟩
    · simp only [List.getD_eq_getElem?_getD, List.getElem?_concat_length,
        List.getElem?_append_left hval]
      rfl
    · simp only [List.getD_eq_getElem?_getD,
        List.getElem?_set_ne (Nat.ne_of_gt hval),
        List.getElem?_append_left hval]

/-- Witness for C9: setting the train performance of a fresh individual to
1 succeeds, and setting it again to 2 raises the assertion error; the heap
holding one allocated parameter mapping at address 0 is valid there, and
`get_params` hands back a fresh equal copy at address 1 whose mutation
leaves address 0 untouched. -/
theorem individual_write_once_and_defensive_copy_w :
    (∃ e, (Individual.set_train_performance
        ⟨some 1, none, none, 0, "DT"⟩ (2 : ℚ) :
          Except String (Individual Nat)) = Except.error e) ∧
    ((Individual.get_params (α := Nat) ⟨none, none, none, 0, "DT"⟩
        ⟨[[("a", 1)]]⟩).1 ≠ 0) :=
  ⟨(individual_write_once_and_defensive_copy
      ⟨none, none, none, 0, "DT"⟩ ⟨some 1, none, none, 0, "DT"⟩ 1 2 0 "DT"
      ⟨[[("a", 1)]]⟩).1 rfl,
   ((individual_write_once_and_defensive_copy
      ⟨none, none, none, 0, "DT"⟩ ⟨some 1, none, none, 0, "DT"⟩ 1 2 0 "DT"
      ⟨[[("a", 1)]]⟩).2.2.2.2.2.2 Nat.one_pos).1⟩
